import Mathlib

/-!
  # Kogito runtime deployer: hooks of the reconciliation cycle

  A shallow embedding of `pkg/controller/kogitoruntime/deployer.go`.

  Conventions of the embedding:

  * Go strings are Lean strings; `len` is the number of characters (the suffix the
    code tests for is ASCII, so character and byte suffixes coincide on UTF-8 text).
  * A Go `map[string]string` is an association list with unique-key update
    (`GoMap.set`) and first-match lookup (`GoMap.get`); a map-typed struct field is
    an `Option` of it, `none` being the nil map (readable, not writable).
  * A Go interface value is an inductive type with one constructor per dynamic type
    in play and a `nil` constructor; the pointer an interface value holds is non-nil.
  * A run-time panic is a value of `GoPanic`.  Functions that mutate the deployment
    through the pointer return the deployment as it stands when they stop, together
    with the panic that stopped them, if any.
  * The helpers of the `framework` package are modelled from the specification; the
    other imports of the deployer are fields of `Collaborators`.
  * Logging is not modelled.
-/

namespace Kogito

/-! ## Go runtime -/

/-- The run-time panics the deployer can raise. -/
inductive GoPanic where
  /-- a single-value type assertion `x.(T)` on a value whose dynamic type is not `T` -/
  | typeAssertion
  /-- an index expression `xs[i]` with `i` outside `0 .. len(xs)-1` -/
  | indexOutOfRange
  /-- an assignment `m[k] = v` on a nil map -/
  | nilMapAssignment
  deriving DecidableEq, Repr

/-- A Go `error` value (non-nil). -/
structure GoError where
  msg : String
  deriving DecidableEq, Repr

/-- A Go map as an association list. -/
abbrev GoMap (κ ν : Type) := List (κ × ν)

/-- The map read `m[k]` with the comma-ok result. -/
def GoMap.get {κ ν : Type} [DecidableEq κ] : GoMap κ ν → κ → Option ν
  | [], _ => none
  | (k', v) :: m, k => if k' = k then some v else GoMap.get m k

/-- The map write `m[k] = v` on a non-nil map. -/
def GoMap.set {κ ν : Type} [DecidableEq κ] : GoMap κ ν → κ → ν → GoMap κ ν
  | [], k, v => [(k, v)]
  | (k', v') :: m, k, v => if k' = k then (k, v) :: m else (k', v') :: GoMap.set m k v

/-- The keys of a map. -/
def GoMap.keys {κ ν : Type} (m : GoMap κ ν) : List κ := m.map Prod.fst

/-- Go `strings.HasSuffix`:
  `len(s) >= len(suffix) && s[len(s)-len(suffix):] == suffix`. -/
def HasSuffix (s suffix : String) : Bool :=
  decide (s.length ≥ suffix.length) && (s.data.drop (s.length - suffix.length) == suffix.data)

/-! ## Kubernetes API objects (the fields the deployer reads or writes) -/

/-- Type `metav1.ObjectMeta`. -/
structure ObjectMeta where
  name : String := ""
  namespace_ : String := ""
  labels : Option (GoMap String String) := none
  annotations : Option (GoMap String String) := none
  deriving DecidableEq, Repr

/-- Type `corev1.EnvVar`. -/
structure EnvVar where
  name : String
  value : String
  deriving DecidableEq, Repr

/-- Type `corev1.VolumeMount`. -/
structure VolumeMount where
  name : String
  mountPath : String
  deriving DecidableEq, Repr

/-- Type `corev1.ExecAction`. -/
structure ExecAction where
  command : List String
  deriving DecidableEq, Repr

/-- Type `corev1.Handler`. -/
structure Handler where
  exec : Option ExecAction := none
  deriving DecidableEq, Repr

/-- Type `corev1.Lifecycle`. -/
structure Lifecycle where
  postStart : Option Handler := none
  deriving DecidableEq, Repr

/-- Type `corev1.Container`. -/
structure Container where
  name : String := ""
  image : String := ""
  env : List EnvVar := []
  volumeMounts : List VolumeMount := []
  lifecycle : Option Lifecycle := none
  deriving DecidableEq, Repr

/-- Type `corev1.ObjectFieldSelector`. -/
structure ObjectFieldSelector where
  apiVersion : String
  fieldPath : String
  deriving DecidableEq, Repr

/-- Type `corev1.DownwardAPIVolumeFile`. -/
structure DownwardAPIVolumeFile where
  path : String
  fieldRef : Option ObjectFieldSelector := none
  deriving DecidableEq, Repr

/-- Type `corev1.DownwardAPIVolumeSource`. -/
structure DownwardAPIVolumeSource where
  items : List DownwardAPIVolumeFile := []
  defaultMode : Option Int := none
  deriving DecidableEq, Repr

/-- Type `corev1.VolumeSource`: the downward-API source, and the name of a ConfigMap
  standing for the sources the deployer never builds. -/
structure VolumeSource where
  downwardAPI : Option DownwardAPIVolumeSource := none
  configMap : Option String := none
  deriving DecidableEq, Repr

/-- Type `corev1.Volume`. -/
structure Volume where
  name : String
  volumeSource : VolumeSource := {}
  deriving DecidableEq, Repr

/-- Type `corev1.PodSpec`. -/
structure PodSpec where
  volumes : List Volume := []
  containers : List Container := []
  serviceAccountName : String := ""
  deriving DecidableEq, Repr

/-- Type `corev1.PodTemplateSpec`. -/
structure PodTemplateSpec where
  objectMeta : ObjectMeta := {}
  spec : PodSpec := {}
  deriving DecidableEq, Repr

/-- Type `appsv1.DeploymentSpec`. -/
structure DeploymentSpec where
  template : PodTemplateSpec := {}
  deriving DecidableEq, Repr

/-- Type `appsv1.Deployment`. -/
structure Deployment where
  objectMeta : ObjectMeta := {}
  spec : DeploymentSpec := {}
  deriving DecidableEq, Repr

/-- Type `corev1.ConfigMap`. -/
structure ConfigMap where
  objectMeta : ObjectMeta := {}
  data : Option (GoMap String String) := none
  deriving DecidableEq, Repr

/-- Type `monv1.ServiceMonitor`. -/
structure ServiceMonitor where
  objectMeta : ObjectMeta := {}
  deriving DecidableEq, Repr

/-- Interface `resource.KubernetesResource`, by dynamic type. -/
inductive KubernetesResource where
  | nil
  | configMap (cm : ConfigMap)
  | serviceMonitor (sm : ServiceMonitor)
  | deployment (d : Deployment)
  deriving DecidableEq, Repr

/-- Interface `runtime.Object`, for the empty list objects the hooks return. -/
inductive RuntimeObject where
  | nil
  | configMapList
  | serviceMonitorList
  deriving DecidableEq, Repr

/-- Interface `reflect.Type`, for the types the hooks key their results by. -/
inductive ReflectType where
  | nil
  | configMap
  | serviceMonitor
  deriving DecidableEq, Repr

/-! ## Kogito API objects -/

/-- Type `v1alpha1.KogitoRuntimeSpec`. -/
structure KogitoRuntimeSpec where
  enableIstio : Bool := false
  deriving DecidableEq, Repr

/-- The status record behind `GetStatus()`. -/
structure KogitoStatus where
  externalURI : String := ""
  deriving DecidableEq, Repr

/-- Type `v1alpha1.KogitoRuntime`. -/
structure KogitoRuntime where
  objectMeta : ObjectMeta := {}
  spec : KogitoRuntimeSpec := {}
  status : KogitoStatus := {}
  deriving DecidableEq, Repr

/-- Interface `v1alpha1.KogitoService`, by dynamic type: a `*KogitoRuntime`, or one
  of the other service kinds, of which only what the interface exposes is kept. -/
inductive KogitoService where
  | kogitoRuntime (r : KogitoRuntime)
  | otherService (objectMeta : ObjectMeta) (status : KogitoStatus)
  deriving DecidableEq, Repr

/-- Method `GetName`. -/
def KogitoService.GetName : KogitoService → String
  | .kogitoRuntime r => r.objectMeta.name
  | .otherService m _ => m.name

/-- Method `GetNamespace`. -/
def KogitoService.GetNamespace : KogitoService → String
  | .kogitoRuntime r => r.objectMeta.namespace_
  | .otherService m _ => m.namespace_

/-- Method chain `GetStatus().GetExternalURI()`. -/
def KogitoService.GetExternalURI : KogitoService → String
  | .kogitoRuntime r => r.status.externalURI
  | .otherService _ s => s.externalURI

/-- Type `client.Client`: the API group versions its discovery client reports. -/
structure Client where
  discovery : List String := []
  deriving DecidableEq, Repr

/-- What the deployer imports from the packages `framework`, `infrastructure` and
  `services`, taken as parameters: label-key constants, the capability probe, the
  ServiceMonitor builder, the default ConfigMap comparator and the two URL injectors. -/
structure Collaborators where
  /-- constant `framework.LabelAppKey` -/
  labelAppKey : String
  /-- constant `infrastructure.ConfigMapProtoBufEnabledLabelKey` -/
  configMapProtoBufEnabledLabelKey : String
  /-- key and value of the annotation written by `framework.AddIstioInjectSidecarAnnotation` -/
  istioSidecarInjectKey : String
  istioSidecarInjectValue : String
  /-- function `services.IsPrometheusAvailable` -/
  IsPrometheusAvailable : Client → Bool
  /-- function `services.CreateServiceMonitor`, `none` for a nil result -/
  CreateServiceMonitor : KogitoRuntime → Option ServiceMonitor
  /-- the comparator returned by `framework.CreateConfigMapComparator()` -/
  CreateConfigMapComparator : KubernetesResource → KubernetesResource → Except GoPanic Bool
  /-- function `infrastructure.InjectDataIndexURLIntoKogitoRuntimeDeployment`: the
  deployment as the call leaves it, and the error it returns -/
  InjectDataIndexURLIntoKogitoRuntimeDeployment :
    Client → String → Deployment → Deployment × Option GoError
  /-- function `infrastructure.InjectJobsServiceURLIntoKogitoRuntimeDeployment` -/
  InjectJobsServiceURLIntoKogitoRuntimeDeployment :
    Client → String → Deployment → Deployment × Option GoError

/-! ## Constants of the deployer -/

def kogitoHome : String := "/home/kogito"

def serviceAccountName : String := "kogito-service-viewer"

def envVarExternalURL : String := "KOGITO_SERVICE_URL"

/-- Suffix that is appended to the Protobuf ConfigMap name. -/
def protobufConfigMapSuffix : String := "protobuf-files"

def downwardAPIVolumeName : String := "podinfo"

def downwardAPIVolumeMount : String := kogitoHome ++ "/" ++ downwardAPIVolumeName

def downwardAPIProtoBufCMKey : String := "protobufcm"

def postHookPersistenceScript : String := kogitoHome ++ "/launch/post-hook-persistence.sh"

def envVarNamespace : String := "NAMESPACE"

def downwardAPIDefaultMode : Int := 420

def podStartExecCommand : List String :=
  ["/bin/bash", "-c",
   "if [ -x " ++ postHookPersistenceScript ++ " ]; then " ++ postHookPersistenceScript ++ "; fi"]

/-! ## The deployer -/

/-- Function `getProtoBufConfigMapName`: `fmt.Sprintf("%s-%s", serviceName, suffix)`. -/
def getProtoBufConfigMapName (serviceName : String) : String :=
  serviceName ++ "-" ++ protobufConfigMapSuffix

/-- Function `createProtoBufConfigMap`. -/
def createProtoBufConfigMap (c : Collaborators) (kogitoService : KogitoService) :
    RuntimeObject × ReflectType × KubernetesResource :=
  let configMap : ConfigMap :=
    { objectMeta :=
        { namespace_ := kogitoService.GetNamespace
          name := getProtoBufConfigMapName kogitoService.GetName
          labels := some
            [ (c.configMapProtoBufEnabledLabelKey, "true"),
              (c.labelAppKey, kogitoService.GetName) ] } }
  (.configMapList, .configMap, .configMap configMap)

/-- Function `createPrometheusServiceMonitor`; the type assertion on the service is
  reached only when the probe answers yes. -/
def createPrometheusServiceMonitor (c : Collaborators) (cli : Client)
    (kogitoService : KogitoService) :
    Except GoPanic (RuntimeObject × ReflectType × KubernetesResource) :=
  if c.IsPrometheusAvailable cli then
    match kogitoService with
    | .kogitoRuntime kogitoRuntime =>
      match c.CreateServiceMonitor kogitoRuntime with
      | some serviceMonitor =>
        .ok (.serviceMonitorList, .serviceMonitor, .serviceMonitor serviceMonitor)
      | none => .ok (.nil, .nil, .nil)
    | .otherService _ _ => .error .typeAssertion
  else
    .ok (.nil, .nil, .nil)

/-- The three named results of `onObjectsCreate`. -/
structure ObjectsCreated where
  resources : GoMap ReflectType (List KubernetesResource)
  lists : List RuntimeObject
  err : Option GoError
  deriving DecidableEq, Repr

/-- Function `onObjectsCreate`. -/
def onObjectsCreate (c : Collaborators) (cli : Client) (kogitoService : KogitoService) :
    Except GoPanic ObjectsCreated :=
  let resources : GoMap ReflectType (List KubernetesResource) := []
  let lists : List RuntimeObject := []
  let (resObjectList, resType, res) := createProtoBufConfigMap c kogitoService
  let lists := lists ++ [resObjectList]
  let resources := resources.set resType [res]
  match createPrometheusServiceMonitor c cli kogitoService with
  | .error p => .error p
  | .ok (resObjectList, resType, res) =>
    if resObjectList ≠ .nil then
      let lists := lists ++ [resObjectList]
      let resources := resources.set resType [res]
      .ok { resources := resources, lists := lists, err := none }
    else
      .ok { resources := resources, lists := lists, err := none }

/-- Function `protoBufConfigMapComparator`. -/
def protoBufConfigMapComparator (c : Collaborators)
    (deployed requested : KubernetesResource) : Except GoPanic Bool :=
  match deployed with
  | .configMap cmDeployed =>
    -- this update is made by the downward API inside the pod container
    if HasSuffix cmDeployed.objectMeta.name protobufConfigMapSuffix then
      .ok true
    else
      c.CreateConfigMapComparator deployed requested
  | _ => .error .typeAssertion

/-- Modelled from the spec: the environment list behind `framework.SetEnvVar`, a
  helper of the `framework` package; "inject an environment variable" is read as: the
  variable of that name takes the value, and is added at the end when there is none. -/
def setEnvVarList (key value : String) : List EnvVar → List EnvVar
  | [] => [{ name := key, value := value }]
  | e :: es =>
    if e.name = key then { e with value := value } :: es
    else e :: setEnvVarList key value es

/-- Modelled from the spec: `framework.SetEnvVar`, a helper of the `framework`
  package, which injects the environment variable into the given container and
  touches nothing else of it. -/
def SetEnvVar (key value : String) (container : Container) : Container :=
  { container with env := setEnvVarList key value container.env }

/-- Modelled from the spec: `framework.AddIstioInjectSidecarAnnotation`, a helper of
  the `framework` package; "add a sidecar-injection annotation" is read as: the
  annotation map, created when nil, gets the sidecar-injection key with its value. -/
def AddIstioInjectSidecarAnnotation (c : Collaborators) (objectMeta : ObjectMeta) :
    ObjectMeta :=
  { objectMeta with
    annotations :=
      some (GoMap.set (objectMeta.annotations.getD []) c.istioSidecarInjectKey
        c.istioSidecarInjectValue) }

/-- A deployment as a mutating function leaves it behind its pointer, and the panic
  that stopped the function, if any. -/
structure Mutated where
  deployment : Deployment
  panic : Option GoPanic
  deriving DecidableEq, Repr

/-- The downward-API volume `applyProtoBufConfigurations` appends. -/
def downwardAPIVolume : Volume :=
  { name := downwardAPIVolumeName
    volumeSource :=
      { downwardAPI := some
          { items :=
              [ { path := "name"
                  fieldRef := some { fieldPath := "metadata.name", apiVersion := "v1" } },
                { path := downwardAPIProtoBufCMKey
                  fieldRef := some
                    { fieldPath := "metadata.labels['" ++ downwardAPIProtoBufCMKey ++ "']"
                      apiVersion := "v1" } } ]
            defaultMode := some downwardAPIDefaultMode } } }

/-- Function `applyProtoBufConfigurations`: configures the deployment to handle
  protobuf. -/
def applyProtoBufConfigurations (deployment : Deployment) (kogitoService : KogitoService) :
    Mutated :=
  match deployment.spec.template.objectMeta.labels with
  | none => { deployment := deployment, panic := some .nilMapAssignment }
  | some labels =>
    let deployment : Deployment :=
      { deployment with
        spec.template.objectMeta.labels :=
          some (labels.set downwardAPIProtoBufCMKey
            (getProtoBufConfigMapName kogitoService.GetName)) }
    let deployment : Deployment :=
      { deployment with
        spec.template.spec.volumes :=
          deployment.spec.template.spec.volumes ++ [downwardAPIVolume] }
    match deployment.spec.template.spec.containers with
    | container0 :: others =>
      let container0 : Container :=
        { container0 with
          volumeMounts :=
            container0.volumeMounts ++
              [{ name := downwardAPIVolumeName, mountPath := downwardAPIVolumeMount }] }
      let container0 : Container :=
        { container0 with
          lifecycle :=
            some { postStart := some { exec := some { command := podStartExecCommand } } } }
      { deployment :=
          { deployment with spec.template.spec.containers := container0 :: others }
        panic := none }
    | [] => { deployment := deployment, panic := none }

/-- The mutation steps of `onDeploymentCreate`: its body up to and including the
  call of `applyProtoBufConfigurations`. -/
def onDeploymentCreateMutations (c : Collaborators) (deployment : Deployment)
    (kogitoService : KogitoService) : Mutated :=
  match kogitoService with
  | .otherService _ _ => { deployment := deployment, panic := some .typeAssertion }
  | .kogitoRuntime kogitoRuntime =>
    match deployment.spec.template.spec.containers with
    | [] => { deployment := deployment, panic := some .indexOutOfRange }
    | container0 :: others =>
      -- NAMESPACE service discovery
      let container0 := SetEnvVar envVarNamespace kogitoService.GetNamespace container0
      -- external URL
      let container0 :=
        if kogitoService.GetExternalURI ≠ "" then
          SetEnvVar envVarExternalURL kogitoService.GetExternalURI container0
        else container0
      let deployment : Deployment :=
        { deployment with spec.template.spec.containers := container0 :: others }
      -- sa
      let deployment : Deployment :=
        { deployment with spec.template.spec.serviceAccountName := serviceAccountName }
      -- istio
      let deployment : Deployment :=
        if kogitoRuntime.spec.enableIstio then
          { deployment with
            spec.template.objectMeta :=
              AddIstioInjectSidecarAnnotation c deployment.spec.template.objectMeta }
        else deployment
      -- protobuf
      applyProtoBufConfigurations deployment kogitoService

/-- The two URL injectors `onDeploymentCreate` delegates to. -/
inductive Injector where
  | dataIndexURL
  | jobsServiceURL
  deriving DecidableEq, Repr

/-- What a call of `onDeploymentCreate` leaves: the deployment behind the pointer,
  the panic that stopped it or else the error it returned, and the injectors it
  invoked, in order. -/
structure DeploymentCreated where
  deployment : Deployment
  panic : Option GoPanic
  err : Option GoError
  invoked : List Injector
  deriving DecidableEq, Repr

/-- Function `onDeploymentCreate`: hooks into the infrastructure package to add
  additional capabilities/properties to the deployment creation. -/
def onDeploymentCreate (c : Collaborators) (cli : Client) (deployment : Deployment)
    (kogitoService : KogitoService) : DeploymentCreated :=
  let mutated := onDeploymentCreateMutations c deployment kogitoService
  match mutated.panic with
  | some p => { deployment := mutated.deployment, panic := some p, err := none, invoked := [] }
  | none =>
    match c.InjectDataIndexURLIntoKogitoRuntimeDeployment cli kogitoService.GetNamespace
        mutated.deployment with
    | (deployment, some err) =>
      { deployment := deployment, panic := none, err := some err, invoked := [.dataIndexURL] }
    | (deployment, none) =>
      match c.InjectJobsServiceURLIntoKogitoRuntimeDeployment cli kogitoService.GetNamespace
          deployment with
      | (deployment, some err) =>
        { deployment := deployment, panic := none, err := some err
          invoked := [.dataIndexURL, .jobsServiceURL] }
      | (deployment, none) =>
        { deployment := deployment, panic := none, err := none
          invoked := [.dataIndexURL, .jobsServiceURL] }

/-- A sample of the collaborators: the probe looks for the monitoring API group in
  the discovery list, the comparator is structural equality, the data-index injector
  fails in a namespace named "no-data-index" and the jobs-service injector in one
  named "no-jobs-service". -/
def sampleCollaborators : Collaborators :=
  { labelAppKey := "app"
    configMapProtoBufEnabledLabelKey := "kogito-protobuf"
    istioSidecarInjectKey := "sidecar.istio.io/inject"
    istioSidecarInjectValue := "true"
    IsPrometheusAvailable := fun cli => cli.discovery.contains "monitoring.coreos.com/v1alpha1"
    CreateServiceMonitor := fun r => some { objectMeta := { name := r.objectMeta.name } }
    CreateConfigMapComparator := fun deployed requested => .ok (decide (deployed = requested))
    InjectDataIndexURLIntoKogitoRuntimeDeployment := fun _ ns d =>
      if ns = "no-data-index" then (d, some { msg := "data index not found" }) else (d, none)
    InjectJobsServiceURLIntoKogitoRuntimeDeployment := fun _ ns d =>
      if ns = "no-jobs-service" then (d, some { msg := "jobs service not found" }) else (d, none) }

/-- The service of the scenario: name "svc1", namespace "ns1", sidecar injection on,
  no external URI yet. -/
def sampleService : KogitoService :=
  .kogitoRuntime
    { objectMeta := { name := "svc1", namespace_ := "ns1" }
      spec := { enableIstio := true } }

/-- A deployment with an initialised label map and one container. -/
def sampleDeployment : Deployment :=
  { objectMeta := { name := "svc1", namespace_ := "ns1" }
    spec :=
      { template :=
          { objectMeta := { labels := some [("app", "svc1")] }
            spec := { containers := [{ name := "svc1", image := "quay.io/kiegroup/svc1" }] } } } }

/-- A deployment with an initialised label map and no container. -/
def sampleBareDeployment : Deployment :=
  { objectMeta := { name := "svc1", namespace_ := "ns1" }
    spec := { template := { objectMeta := { labels := some [("app", "svc1")] } } } }

/-! ## The build-type converter of the command line

  A shallow embedding of `cmd/kogito/command/converter/kogitobuildtype_converter.go`.
  The types `flag.ResourceType` and `v1alpha1.KogitoBuildType` and their constants are
  declared in other packages: the types are type parameters with decidable equality
  (the `==` of the `switch`), the constants are fields of the two records below. -/

/-- The constants of type `flag.ResourceType` the converter names. -/
structure ResourceTypes (ρ : Type) where
  LocalDirectoryResource : ρ
  LocalFileResource : ρ
  GitFileResource : ρ
  GitRepositoryResource : ρ
  BinaryResource : ρ

/-- The constants of type `v1alpha1.KogitoBuildType` the converter names. -/
structure KogitoBuildTypes (β : Type) where
  LocalSourceBuildType : β
  RemoteSourceBuildType : β
  BinaryBuildType : β

/-- Function `FromResourceTypeToKogitoBuildType`: converts the given ResourceType into
  a KogitoBuildType; the cases of the `switch` are tried from the top. -/
def FromResourceTypeToKogitoBuildType {ρ β : Type} [DecidableEq ρ] (flag : ResourceTypes ρ)
    (v1alpha1 : KogitoBuildTypes β) (resourceType : ρ) : β :=
  if resourceType = flag.LocalDirectoryResource ∨ resourceType = flag.LocalFileResource ∨
      resourceType = flag.GitFileResource then
    v1alpha1.LocalSourceBuildType
  else if resourceType = flag.GitRepositoryResource then
    v1alpha1.RemoteSourceBuildType
  else if resourceType = flag.BinaryResource then
    v1alpha1.BinaryBuildType
  else
    v1alpha1.RemoteSourceBuildType

/-- A sample of the resource-type constants, as strings. -/
def sampleResourceTypes : ResourceTypes String :=
  { LocalDirectoryResource := "LocalDirectoryResource"
    LocalFileResource := "LocalFileResource"
    GitFileResource := "GitFileResource"
    GitRepositoryResource := "GitRepositoryResource"
    BinaryResource := "BinaryResource" }

/-- A sample of the build-type constants, as strings. -/
def sampleKogitoBuildTypes : KogitoBuildTypes String :=
  { LocalSourceBuildType := "LocalSource"
    RemoteSourceBuildType := "RemoteSource"
    BinaryBuildType := "Binary" }

/-! ## Lemmas on maps, strings and environment lists -/

theorem GoMap.get_set_same {κ ν : Type} [DecidableEq κ] (m : GoMap κ ν) (k : κ) (v : ν) :
    GoMap.get (GoMap.set m k v) k = some v := by
  induction m with
  | nil => simp [GoMap.set, GoMap.get]
  | cons kv m ih =>
    obtain ⟨k', v'⟩ := kv
    by_cases h : k' = k
    · simp [GoMap.set, GoMap.get, h]
    · simp [GoMap.set, GoMap.get, h, ih]

theorem GoMap.get_set_other {κ ν : Type} [DecidableEq κ] (m : GoMap κ ν) (k j : κ) (v : ν)
    (hj : j ≠ k) : GoMap.get (GoMap.set m k v) j = GoMap.get m j := by
  induction m with
  | nil =>
    have hk : ¬ k = j := fun e => hj e.symm
    simp [GoMap.set, GoMap.get, hk]
  | cons kv m ih =>
    obtain ⟨k', v'⟩ := kv
    by_cases h : k' = k
    · have hk : ¬ k = j := fun e => hj e.symm
      have hk' : ¬ k' = j := fun e => hj (e.symm.trans h)
      simp [GoMap.set, GoMap.get, h, hk]
    · by_cases h2 : k' = j
      · subst h2
        simp [GoMap.set, GoMap.get, hj]
      · simp [GoMap.set, GoMap.get, h, h2, ih]

theorem HasSuffix_append (p s : String) : HasSuffix (p ++ s) s = true := by
  have hlen : (p ++ s).length - s.length = p.data.length := by
    rw [String.length_append]
    exact Nat.add_sub_cancel p.length s.length
  have hle : s.length ≤ (p ++ s).length := by
    rw [String.length_append]
    exact Nat.le_add_left _ _
  unfold HasSuffix
  rw [hlen, String.data_append, List.drop_left]
  simp [hle]

theorem setEnvVarList_fresh (k v : String) (es : List EnvVar)
    (h : ∀ e ∈ es, e.name ≠ k) :
    setEnvVarList k v es = es ++ [{ name := k, value := v }] := by
  induction es with
  | nil => rfl
  | cons e es ih =>
    have he : e.name ≠ k := h e (List.mem_cons_self _ _)
    have ht : ∀ x ∈ es, x.name ≠ k := fun x hx => h x (List.mem_cons_of_mem _ hx)
    simp [setEnvVarList, he, ih ht]

theorem setEnvVarList_other (k v j : String) (es : List EnvVar) (hj : j ≠ k)
    (h : ∀ e ∈ es, e.name ≠ j) :
    ∀ e ∈ setEnvVarList k v es, e.name ≠ j := by
  induction es with
  | nil =>
    intro e he
    simp [setEnvVarList] at he
    subst he
    exact fun e => hj e.symm
  | cons x xs ih =>
    have hx : x.name ≠ j := h x (List.mem_cons_self _ _)
    have ht : ∀ y ∈ xs, y.name ≠ j := fun y hy => h y (List.mem_cons_of_mem _ hy)
    intro e he
    by_cases hxk : x.name = k
    · simp [setEnvVarList, hxk] at he
      rcases he with he | he
      · subst he
        exact fun e => hj e.symm
      · exact ht e he
    · simp [setEnvVarList, hxk] at he
      rcases he with he | he
      · subst he
        exact hx
      · exact ih ht e he

theorem getProtoBufConfigMapName_eq (n : String) :
    getProtoBufConfigMapName n = n ++ "-protobuf-files" := by
  unfold getProtoBufConfigMapName protobufConfigMapSuffix
  rw [String.append_assoc]
  rfl

/-! ## Lemmas on `applyProtoBufConfigurations` -/

/-- On a nil label map the function stops at its first statement and leaves the
  deployment as it was. -/
theorem applyProtoBufConfigurations_on_nil_map (d : Deployment) (svc : KogitoService)
    (h : d.spec.template.objectMeta.labels = none) :
    applyProtoBufConfigurations d svc = { deployment := d, panic := some .nilMapAssignment } := by
  unfold applyProtoBufConfigurations
  simp [h]

/-- The result on an initialised label map and no container. -/
theorem applyProtoBufConfigurations_no_container (d : Deployment) (svc : KogitoService)
    (labels : GoMap String String) (h : d.spec.template.objectMeta.labels = some labels)
    (hc : d.spec.template.spec.containers = []) :
    applyProtoBufConfigurations d svc =
      { deployment :=
          { d with
            spec.template.objectMeta.labels :=
              some (labels.set downwardAPIProtoBufCMKey (getProtoBufConfigMapName svc.GetName))
            spec.template.spec.volumes := d.spec.template.spec.volumes ++ [downwardAPIVolume] }
        panic := none } := by
  unfold applyProtoBufConfigurations
  simp [h, hc]

/-- The result on an initialised label map and at least one container. -/
theorem applyProtoBufConfigurations_container (d : Deployment) (svc : KogitoService)
    (labels : GoMap String String) (c0 : Container) (cs : List Container)
    (h : d.spec.template.objectMeta.labels = some labels)
    (hc : d.spec.template.spec.containers = c0 :: cs) :
    applyProtoBufConfigurations d svc =
      { deployment :=
          { d with
            spec.template.objectMeta.labels :=
              some (labels.set downwardAPIProtoBufCMKey (getProtoBufConfigMapName svc.GetName))
            spec.template.spec.volumes := d.spec.template.spec.volumes ++ [downwardAPIVolume]
            spec.template.spec.containers :=
              { c0 with
                volumeMounts :=
                  c0.volumeMounts ++
                    [{ name := downwardAPIVolumeName, mountPath := downwardAPIVolumeMount }]
                lifecycle :=
                  some { postStart := some { exec := some { command := podStartExecCommand } } } }
                :: cs }
        panic := none } := by
  unfold applyProtoBufConfigurations
  simp [h, hc]

/-! ## Lemmas on the mutation steps of `onDeploymentCreate` -/

/-- The first container after the mutation steps: the tail of the container list is
  kept, and the environment of the first container is the one the two `SetEnvVar`
  calls leave. -/
theorem onDeploymentCreateMutations_containers (c : Collaborators) (d : Deployment)
    (rt : KogitoRuntime) (c0 : Container) (cs : List Container)
    (hc : d.spec.template.spec.containers = c0 :: cs) :
    ∃ c0' : Container,
      (onDeploymentCreateMutations c d (.kogitoRuntime rt)).deployment.spec.template.spec.containers
        = c0' :: cs ∧
      c0'.env =
        (if rt.status.externalURI ≠ "" then
          setEnvVarList envVarExternalURL rt.status.externalURI
            (setEnvVarList envVarNamespace rt.objectMeta.namespace_ c0.env)
        else setEnvVarList envVarNamespace rt.objectMeta.namespace_ c0.env) := by
  unfold onDeploymentCreateMutations
  simp only [hc]
  cases hl : d.spec.template.objectMeta.labels <;> cases hi : rt.spec.enableIstio <;>
    by_cases hu : rt.status.externalURI = "" <;>
    simp [applyProtoBufConfigurations, hl, hi, hu, AddIstioInjectSidecarAnnotation, SetEnvVar,
      KogitoService.GetExternalURI, KogitoService.GetNamespace]

/-- The mutation steps run to their end on a KogitoRuntime service, a deployment
  with a container and an initialised label map. -/
theorem onDeploymentCreateMutations_completes (c : Collaborators) (d : Deployment)
    (rt : KogitoRuntime) (labels : GoMap String String)
    (hc : d.spec.template.spec.containers ≠ [])
    (hl : d.spec.template.objectMeta.labels = some labels) :
    (onDeploymentCreateMutations c d (.kogitoRuntime rt)).panic = none := by
  unfold onDeploymentCreateMutations
  cases hcs : d.spec.template.spec.containers with
  | nil => exact absurd hcs hc
  | cons c0 cs =>
    cases hi : rt.spec.enableIstio <;>
      simp [applyProtoBufConfigurations, hl, hi, AddIstioInjectSidecarAnnotation]

/-- The mutation steps never stop on an index out of range when the deployment has
  a container. -/
theorem onDeploymentCreateMutations_in_range (c : Collaborators) (d : Deployment)
    (svc : KogitoService) (hc : d.spec.template.spec.containers ≠ []) :
    (onDeploymentCreateMutations c d svc).panic ≠ some .indexOutOfRange := by
  unfold onDeploymentCreateMutations
  cases svc with
  | otherService m st => simp
  | kogitoRuntime rt =>
    cases hcs : d.spec.template.spec.containers with
    | nil => exact absurd hcs hc
    | cons c0 cs =>
      cases hl : d.spec.template.objectMeta.labels <;> cases hi : rt.spec.enableIstio <;>
        simp [applyProtoBufConfigurations, hl, hi, AddIstioInjectSidecarAnnotation]

/-- The annotations of the pod template after the mutation steps. -/
theorem onDeploymentCreateMutations_annotations (c : Collaborators) (d : Deployment)
    (rt : KogitoRuntime) (hc : d.spec.template.spec.containers ≠ []) :
    (onDeploymentCreateMutations c d
      (.kogitoRuntime rt)).deployment.spec.template.objectMeta.annotations
      = (if rt.spec.enableIstio then
          some (GoMap.set (d.spec.template.objectMeta.annotations.getD [])
            c.istioSidecarInjectKey c.istioSidecarInjectValue)
        else d.spec.template.objectMeta.annotations) := by
  unfold onDeploymentCreateMutations
  cases hcs : d.spec.template.spec.containers with
  | nil => exact absurd hcs hc
  | cons c0 cs =>
    cases hl : d.spec.template.objectMeta.labels <;> cases hi : rt.spec.enableIstio <;>
      simp [applyProtoBufConfigurations, hl, hi, AddIstioInjectSidecarAnnotation]

/-! ## The ConfigMap comparator -/

/-- C1: a deployed ConfigMap whose name ends with the suffix "protobuf-files" is
  reported equal to any requested resource, whatever the payload, labels or kind of
  either, and whatever the default ConfigMap comparator would answer. -/
theorem protoBufConfigMapComparator_suffix_true (c : Collaborators) (cmDeployed : ConfigMap)
    (requested : KubernetesResource)
    (hname : ∃ p : String, cmDeployed.objectMeta.name = p ++ "protobuf-files") :
    protoBufConfigMapComparator c (.configMap cmDeployed) requested = .ok true := by
  obtain ⟨p, hp⟩ := hname
  have hs : HasSuffix cmDeployed.objectMeta.name protobufConfigMapSuffix = true := by
    rw [hp]
    exact HasSuffix_append p protobufConfigMapSuffix
  simp [protoBufConfigMapComparator, hs]

/-- Witness of C1: the deployed ConfigMap "svc1-protobuf-files" with a payload
  against a requested Deployment. -/
theorem protoBufConfigMapComparator_suffix_true_witness :
    (∃ p : String, "svc1-protobuf-files" = p ++ "protobuf-files") ∧
    protoBufConfigMapComparator sampleCollaborators
      (.configMap
        { objectMeta := { name := "svc1-protobuf-files" }, data := some [("a.proto", "x")] })
      (.deployment sampleDeployment) = .ok true :=
  ⟨⟨"svc1-", by decide⟩,
   protoBufConfigMapComparator_suffix_true sampleCollaborators
     { objectMeta := { name := "svc1-protobuf-files" }, data := some [("a.proto", "x")] }
     (.deployment sampleDeployment) ⟨"svc1-", by decide⟩⟩

/-- C8: on a deployed resource that is not a ConfigMap the comparator yields no
  boolean: the type assertion fails and the call ends in a panic, whatever the
  requested resource is. -/
theorem protoBufConfigMapComparator_not_configMap_panics (c : Collaborators)
    (deployed requested : KubernetesResource)
    (hkind : ∀ cm : ConfigMap, deployed ≠ .configMap cm) :
    protoBufConfigMapComparator c deployed requested = .error .typeAssertion ∧
    ∀ equal : Bool, protoBufConfigMapComparator c deployed requested ≠ .ok equal := by
  have hp : protoBufConfigMapComparator c deployed requested = .error .typeAssertion := by
    cases deployed with
    | configMap cm => exact absurd rfl (hkind cm)
    | nil => rfl
    | serviceMonitor sm => rfl
    | deployment d => rfl
  refine ⟨hp, ?_⟩
  intro equal h
  rw [hp] at h
  cases h

/-- Witness of C8: a deployed Deployment against a requested ConfigMap. -/
theorem protoBufConfigMapComparator_not_configMap_panics_witness :
    (∀ cm : ConfigMap, KubernetesResource.deployment sampleDeployment ≠ .configMap cm) ∧
    protoBufConfigMapComparator sampleCollaborators (.deployment sampleDeployment)
      (.configMap {}) = .error .typeAssertion :=
  ⟨(fun _ h => KubernetesResource.noConfusion h),
   (protoBufConfigMapComparator_not_configMap_panics sampleCollaborators
     (.deployment sampleDeployment) (.configMap {})
     (fun _ h => KubernetesResource.noConfusion h)).1⟩

/-! ## The protobuf ConfigMap and its label on the workload template -/

/-- C3: on a template whose label map is initialised, `applyProtoBufConfigurations`
  writes under "protobufcm" the name of the ConfigMap `createProtoBufConfigMap` builds
  for the same service, and both are the service name followed by "-protobuf-files". -/
theorem protobufcm_label_is_configMap_name (c : Collaborators) (d : Deployment)
    (svc : KogitoService) (labels : GoMap String String)
    (hlabels : d.spec.template.objectMeta.labels = some labels) :
    ∃ (written : GoMap String String) (cm : ConfigMap),
      (applyProtoBufConfigurations d svc).panic = none ∧
      (applyProtoBufConfigurations d svc).deployment.spec.template.objectMeta.labels
        = some written ∧
      (createProtoBufConfigMap c svc).2.2 = .configMap cm ∧
      written.get "protobufcm" = some cm.objectMeta.name ∧
      written.get "protobufcm" = some (svc.GetName ++ "-protobuf-files") ∧
      cm.objectMeta.name = svc.GetName ++ "-protobuf-files" := by
  refine ⟨labels.set downwardAPIProtoBufCMKey (getProtoBufConfigMapName svc.GetName),
    { objectMeta :=
        { namespace_ := svc.GetNamespace
          name := getProtoBufConfigMapName svc.GetName
          labels := some
            [ (c.configMapProtoBufEnabledLabelKey, "true"),
              (c.labelAppKey, svc.GetName) ] } }, ?_, ?_, rfl, ?_, ?_, ?_⟩
  · cases hc : d.spec.template.spec.containers with
    | nil => rw [applyProtoBufConfigurations_no_container d svc labels hlabels hc]
    | cons c0 cs => rw [applyProtoBufConfigurations_container d svc labels c0 cs hlabels hc]
  · cases hc : d.spec.template.spec.containers with
    | nil => rw [applyProtoBufConfigurations_no_container d svc labels hlabels hc]
    | cons c0 cs => rw [applyProtoBufConfigurations_container d svc labels c0 cs hlabels hc]
  · exact GoMap.get_set_same labels _ _
  · rw [← getProtoBufConfigMapName_eq]
    exact GoMap.get_set_same labels _ _
  · exact getProtoBufConfigMapName_eq _

/-- Witness of C3: the service "svc1" of the scenario, whose label and ConfigMap name
  are "svc1-protobuf-files". -/
theorem protobufcm_label_is_configMap_name_witness :
    sampleDeployment.spec.template.objectMeta.labels = some [("app", "svc1")] ∧
    sampleService.GetName ++ "-protobuf-files" = "svc1-protobuf-files" ∧
    ∃ (written : GoMap String String) (cm : ConfigMap),
      (applyProtoBufConfigurations sampleDeployment sampleService).panic = none ∧
      (applyProtoBufConfigurations sampleDeployment
        sampleService).deployment.spec.template.objectMeta.labels = some written ∧
      (createProtoBufConfigMap sampleCollaborators sampleService).2.2 = .configMap cm ∧
      written.get "protobufcm" = some cm.objectMeta.name ∧
      written.get "protobufcm" = some (sampleService.GetName ++ "-protobuf-files") ∧
      cm.objectMeta.name = sampleService.GetName ++ "-protobuf-files" :=
  ⟨rfl, by decide,
   protobufcm_label_is_configMap_name sampleCollaborators sampleDeployment sampleService
     [("app", "svc1")] rfl⟩

/-- C6: the ConfigMap built by `createProtoBufConfigMap` lies in the namespace of the
  service and has exactly two labels: the owner label, whose value is the name of the
  service, and the protobuf-enabled label, whose value is "true". -/
theorem createProtoBufConfigMap_labels (c : Collaborators) (svc : KogitoService)
    (hkeys : c.configMapProtoBufEnabledLabelKey ≠ c.labelAppKey) :
    ∃ (cm : ConfigMap) (labels : GoMap String String),
      createProtoBufConfigMap c svc = (.configMapList, .configMap, .configMap cm) ∧
      cm.objectMeta.namespace_ = svc.GetNamespace ∧
      cm.objectMeta.labels = some labels ∧
      labels.get c.labelAppKey = some svc.GetName ∧
      labels.get c.configMapProtoBufEnabledLabelKey = some "true" ∧
      labels.keys = [c.configMapProtoBufEnabledLabelKey, c.labelAppKey] ∧
      ∀ k : String, k ≠ c.labelAppKey → k ≠ c.configMapProtoBufEnabledLabelKey →
        labels.get k = none := by
  refine ⟨_, _, rfl, rfl, rfl, ?_, ?_, rfl, ?_⟩
  · simp [GoMap.get, hkeys]
  · simp [GoMap.get]
  · intro k h1 h2
    have h1' : ¬ c.labelAppKey = k := fun e => h1 e.symm
    have h2' : ¬ c.configMapProtoBufEnabledLabelKey = k := fun e => h2 e.symm
    simp [GoMap.get, h1', h2']

/-- Witness of C6: the ConfigMap of the service "svc1" in "ns1". -/
theorem createProtoBufConfigMap_labels_witness :
    sampleCollaborators.configMapProtoBufEnabledLabelKey ≠ sampleCollaborators.labelAppKey ∧
    ∃ (cm : ConfigMap) (labels : GoMap String String),
      createProtoBufConfigMap sampleCollaborators sampleService
        = (.configMapList, .configMap, .configMap cm) ∧
      cm.objectMeta.namespace_ = sampleService.GetNamespace ∧
      cm.objectMeta.labels = some labels ∧
      labels.get sampleCollaborators.labelAppKey = some sampleService.GetName ∧
      labels.get sampleCollaborators.configMapProtoBufEnabledLabelKey = some "true" ∧
      labels.keys =
        [sampleCollaborators.configMapProtoBufEnabledLabelKey, sampleCollaborators.labelAppKey] ∧
      ∀ k : String, k ≠ sampleCollaborators.labelAppKey →
        k ≠ sampleCollaborators.configMapProtoBufEnabledLabelKey → labels.get k = none :=
  ⟨by decide, createProtoBufConfigMap_labels sampleCollaborators sampleService (by decide)⟩

/-! ## Capability gating of the monitoring resource -/

/-- C4: when the probe reports the monitoring API group absent, `onObjectsCreate`
  returns, for every service, no error, a resource map whose only key is the ConfigMap
  type, holding the protobuf ConfigMap alone, and one list object; the map has no
  entry for the ServiceMonitor type. -/
theorem onObjectsCreate_without_prometheus (c : Collaborators) (cli : Client)
    (svc : KogitoService) (hprobe : c.IsPrometheusAvailable cli = false) :
    ∃ (out : ObjectsCreated) (cm : ConfigMap),
      onObjectsCreate c cli svc = .ok out ∧
      out.err = none ∧
      (createProtoBufConfigMap c svc).2.2 = .configMap cm ∧
      out.resources.keys = [.configMap] ∧
      out.resources.get .configMap = some [.configMap cm] ∧
      out.resources.get .serviceMonitor = none ∧
      out.lists = [.configMapList] ∧
      out.lists.length = 1 := by
  refine ⟨{ resources := [(.configMap, [(createProtoBufConfigMap c svc).2.2])]
            lists := [.configMapList], err := none }, _, ?_, rfl, rfl, rfl, ?_, ?_, rfl, rfl⟩
  · simp [onObjectsCreate, createPrometheusServiceMonitor, hprobe, createProtoBufConfigMap,
      GoMap.set]
  · simp [GoMap.get, createProtoBufConfigMap]
  · simp [GoMap.get]

/-- Witness of C4: a cluster whose discovery list lacks the monitoring group. -/
theorem onObjectsCreate_without_prometheus_witness :
    sampleCollaborators.IsPrometheusAvailable { discovery := ["infinispan.org/v1"] } = false ∧
    ∃ (out : ObjectsCreated) (cm : ConfigMap),
      onObjectsCreate sampleCollaborators { discovery := ["infinispan.org/v1"] } sampleService
        = .ok out ∧
      out.err = none ∧
      (createProtoBufConfigMap sampleCollaborators sampleService).2.2 = .configMap cm ∧
      out.resources.keys = [.configMap] ∧
      out.resources.get .configMap = some [.configMap cm] ∧
      out.resources.get .serviceMonitor = none ∧
      out.lists = [.configMapList] ∧
      out.lists.length = 1 :=
  ⟨by decide,
   onObjectsCreate_without_prometheus sampleCollaborators { discovery := ["infinispan.org/v1"] }
     sampleService (by decide)⟩

/-! ## The mutation steps of `onDeploymentCreate` -/

/-- C2: for a KogitoRuntime service and a deployment whose first container has no
  variable KOGITO_SERVICE_URL, the first container after the mutation steps has a
  variable KOGITO_SERVICE_URL exactly when the external URI of the status is non-empty,
  and every variable of that name then carries that URI; the steps run to their end
  when the label map of the template is initialised. -/
theorem onDeploymentCreate_external_url (c : Collaborators) (d : Deployment)
    (rt : KogitoRuntime) (c0 : Container) (cs : List Container)
    (hc : d.spec.template.spec.containers = c0 :: cs)
    (hfresh : ∀ e ∈ c0.env, e.name ≠ "KOGITO_SERVICE_URL") :
    ∃ c0' : Container,
      (onDeploymentCreateMutations c d
        (.kogitoRuntime rt)).deployment.spec.template.spec.containers = c0' :: cs ∧
      ((∃ e ∈ c0'.env, e.name = "KOGITO_SERVICE_URL") ↔ rt.status.externalURI ≠ "") ∧
      (∀ e ∈ c0'.env, e.name = "KOGITO_SERVICE_URL" → e.value = rt.status.externalURI) ∧
      (d.spec.template.objectMeta.labels ≠ none →
        (onDeploymentCreateMutations c d (.kogitoRuntime rt)).panic = none) := by
  obtain ⟨c0', hcont, henv⟩ := onDeploymentCreateMutations_containers c d rt c0 cs hc
  have hne : ("KOGITO_SERVICE_URL" : String) ≠ envVarNamespace := by decide
  have hns : ∀ e ∈ setEnvVarList envVarNamespace rt.objectMeta.namespace_ c0.env,
      e.name ≠ "KOGITO_SERVICE_URL" :=
    setEnvVarList_other envVarNamespace rt.objectMeta.namespace_ "KOGITO_SERVICE_URL" c0.env
      hne hfresh
  refine ⟨c0', hcont, ?_, ?_, ?_⟩
  · by_cases hu : rt.status.externalURI = ""
    · rw [henv]
      simp only [hu, ne_eq, not_true_eq_false, if_false, iff_false]
      rintro ⟨e, he, hname⟩
      exact hns e he hname
    · rw [henv, if_pos hu, setEnvVarList_fresh envVarExternalURL _ _ hns]
      refine ⟨fun _ => hu, fun _ =>
        ⟨{ name := envVarExternalURL, value := rt.status.externalURI }, by simp, rfl⟩⟩
  · intro e he hname
    by_cases hu : rt.status.externalURI = ""
    · rw [henv] at he
      simp only [hu, ne_eq, not_true_eq_false, if_false] at he
      exact absurd hname (hns e he)
    · rw [henv, if_pos hu, setEnvVarList_fresh envVarExternalURL _ _ hns] at he
      rcases List.mem_append.mp he with h1 | h1
      · exact absurd hname (hns e h1)
      · rw [List.mem_singleton.mp h1]
  · intro hl
    cases hlab : d.spec.template.objectMeta.labels with
    | none => exact absurd hlab hl
    | some labels =>
      exact onDeploymentCreateMutations_completes c d rt labels (by rw [hc]; simp) hlab

/-- Witness of C2: the sample deployment, whose only container has an empty
  environment, under the sample service, whose status carries no external URI. -/
theorem onDeploymentCreate_external_url_witness :
    sampleDeployment.spec.template.spec.containers
      = [{ name := "svc1", image := "quay.io/kiegroup/svc1" }] ∧
    (∀ e ∈ ({ name := "svc1", image := "quay.io/kiegroup/svc1" } : Container).env,
      e.name ≠ "KOGITO_SERVICE_URL") ∧
    ∃ c0' : Container,
      (onDeploymentCreateMutations sampleCollaborators sampleDeployment
        (.kogitoRuntime
          { objectMeta := { name := "svc1", namespace_ := "ns1" }
            spec := { enableIstio := true } })).deployment.spec.template.spec.containers
        = [c0'] ∧
      ¬ (∃ e ∈ c0'.env, e.name = "KOGITO_SERVICE_URL") := by
  refine ⟨rfl, fun e he => by simp at he, ?_⟩
  obtain ⟨c0', h1, h2, _, _⟩ :=
    onDeploymentCreate_external_url sampleCollaborators sampleDeployment
      { objectMeta := { name := "svc1", namespace_ := "ns1" }, spec := { enableIstio := true } }
      { name := "svc1", image := "quay.io/kiegroup/svc1" } [] rfl (fun e he => by simp at he)
  exact ⟨c0', h1, fun h => (h2.mp h) rfl⟩

/-- C5: for a KogitoRuntime service and a deployment with a container, the pod
  template after the mutation steps carries the sidecar-injection annotation, next to
  the annotations it had, when EnableIstio is set, and has exactly the annotations it
  had when EnableIstio is not set; the steps run to their end when the label map of
  the template is initialised. -/
theorem onDeploymentCreate_istio_annotation (c : Collaborators) (d : Deployment)
    (rt : KogitoRuntime) (hc : d.spec.template.spec.containers ≠ []) :
    (rt.spec.enableIstio = true →
      ∃ annotations : GoMap String String,
        (onDeploymentCreateMutations c d
          (.kogitoRuntime rt)).deployment.spec.template.objectMeta.annotations
          = some annotations ∧
        annotations.get c.istioSidecarInjectKey = some c.istioSidecarInjectValue ∧
        ∀ k : String, k ≠ c.istioSidecarInjectKey →
          annotations.get k = (d.spec.template.objectMeta.annotations.getD []).get k) ∧
    (rt.spec.enableIstio = false →
      (onDeploymentCreateMutations c d
        (.kogitoRuntime rt)).deployment.spec.template.objectMeta.annotations
        = d.spec.template.objectMeta.annotations) ∧
    (d.spec.template.objectMeta.labels ≠ none →
      (onDeploymentCreateMutations c d (.kogitoRuntime rt)).panic = none) := by
  have hann := onDeploymentCreateMutations_annotations c d rt hc
  refine ⟨?_, ?_, ?_⟩
  · intro hi
    rw [hi] at hann
    exact ⟨_, hann, GoMap.get_set_same _ _ _, fun k hk => GoMap.get_set_other _ _ k _ hk⟩
  · intro hi
    rw [hi] at hann
    exact hann
  · intro hl
    cases hlab : d.spec.template.objectMeta.labels with
    | none => exact absurd hlab hl
    | some labels => exact onDeploymentCreateMutations_completes c d rt labels hc hlab

/-- Witness of C5: the sample deployment under a service with EnableIstio set. -/
theorem onDeploymentCreate_istio_annotation_witness :
    sampleDeployment.spec.template.spec.containers ≠ [] ∧
    (onDeploymentCreateMutations sampleCollaborators sampleDeployment
      (.kogitoRuntime
        { objectMeta := { name := "svc1", namespace_ := "ns1" }
          spec := { enableIstio := true } })).panic = none ∧
    ∃ annotations : GoMap String String,
      (onDeploymentCreateMutations sampleCollaborators sampleDeployment
        (.kogitoRuntime
          { objectMeta := { name := "svc1", namespace_ := "ns1" }
            spec := { enableIstio := true } })).deployment.spec.template.objectMeta.annotations
        = some annotations ∧
      annotations.get "sidecar.istio.io/inject" = some "true" := by
  have h := onDeploymentCreate_istio_annotation sampleCollaborators sampleDeployment
    { objectMeta := { name := "svc1", namespace_ := "ns1" }, spec := { enableIstio := true } }
    (by decide)
  obtain ⟨annotations, h1, h2, _⟩ := h.1 rfl
  exact ⟨by decide, h.2.2 (by decide), annotations, h1, h2⟩

/-! ## The injectors of `onDeploymentCreate` -/

/-- C7, as stated, fails on a deployment with a container whose template label map
  is nil, and on a service that is not a KogitoRuntime.  In the namespace
  "no-data-index" the data-index injector of the sample fails on every deployment,
  yet on nil labels `onDeploymentCreate` stops on the label write, returns no error
  and invokes no injector.  In the namespace "ns1" both injectors of the sample
  succeed on every deployment, yet `onDeploymentCreate` does not return on nil labels,
  nor on a service of another kind, which stops it on the type assertion. -/
theorem onDeploymentCreate_nil_labels_counterexample :
    ({ spec := { template := { spec := { containers := [{ name := "svc1" }] } } } }
      : Deployment).spec.template.spec.containers ≠ [] ∧
    (∀ d : Deployment,
      sampleCollaborators.InjectDataIndexURLIntoKogitoRuntimeDeployment {} "no-data-index" d
        = (d, some { msg := "data index not found" })) ∧
    onDeploymentCreate sampleCollaborators {}
      { spec := { template := { spec := { containers := [{ name := "svc1" }] } } } }
      (.kogitoRuntime { objectMeta := { name := "svc1", namespace_ := "no-data-index" } })
      = { deployment :=
            { spec :=
                { template :=
                    { spec :=
                        { containers :=
                            [{ name := "svc1"
                               env := [{ name := "NAMESPACE", value := "no-data-index" }] }]
                          serviceAccountName := "kogito-service-viewer" } } } }
          panic := some .nilMapAssignment, err := none, invoked := [] } ∧
    (∀ d : Deployment,
      sampleCollaborators.InjectDataIndexURLIntoKogitoRuntimeDeployment {} "ns1" d = (d, none) ∧
      sampleCollaborators.InjectJobsServiceURLIntoKogitoRuntimeDeployment {} "ns1" d
        = (d, none)) ∧
    (onDeploymentCreate sampleCollaborators {}
      { spec := { template := { spec := { containers := [{ name := "svc1" }] } } } }
      (.kogitoRuntime { objectMeta := { name := "svc1", namespace_ := "ns1" } })).panic
      = some .nilMapAssignment ∧
    sampleDeployment.spec.template.spec.containers ≠ [] ∧
    onDeploymentCreate sampleCollaborators {} sampleDeployment
      (.otherService { name := "data-index", namespace_ := "ns1" } {})
      = { deployment := sampleDeployment, panic := some .typeAssertion, err := none
          invoked := [] } := by
  refine ⟨by decide, fun d => ?_, by decide, fun d => ⟨?_, ?_⟩, by decide, by decide, by decide⟩
  · simp [sampleCollaborators]
  · simp [sampleCollaborators]
  · simp [sampleCollaborators]

/-- C7, amended: for a KogitoRuntime service and a deployment with a container and an
  initialised template label map, `onDeploymentCreate` returns: with the error of the
  data-index injector when that one fails on the deployment the mutation steps leave,
  the jobs-service injector not being invoked; with the error of the jobs-service
  injector when only that one fails; and with no error exactly when both injectors
  succeed. -/
theorem onDeploymentCreate_injector_errors (c : Collaborators) (cli : Client)
    (d : Deployment) (rt : KogitoRuntime) (labels : GoMap String String)
    (hc : d.spec.template.spec.containers ≠ [])
    (hl : d.spec.template.objectMeta.labels = some labels) :
    (onDeploymentCreate c cli d (.kogitoRuntime rt)).panic = none ∧
    (∀ (d1 : Deployment) (e : GoError),
      c.InjectDataIndexURLIntoKogitoRuntimeDeployment cli rt.objectMeta.namespace_
        (onDeploymentCreateMutations c d (.kogitoRuntime rt)).deployment = (d1, some e) →
      onDeploymentCreate c cli d (.kogitoRuntime rt) =
        { deployment := d1, panic := none, err := some e, invoked := [.dataIndexURL] }) ∧
    (∀ (d1 d2 : Deployment) (e : GoError),
      c.InjectDataIndexURLIntoKogitoRuntimeDeployment cli rt.objectMeta.namespace_
        (onDeploymentCreateMutations c d (.kogitoRuntime rt)).deployment = (d1, none) →
      c.InjectJobsServiceURLIntoKogitoRuntimeDeployment cli rt.objectMeta.namespace_ d1
        = (d2, some e) →
      onDeploymentCreate c cli d (.kogitoRuntime rt) =
        { deployment := d2, panic := none, err := some e
          invoked := [.dataIndexURL, .jobsServiceURL] }) ∧
    ((onDeploymentCreate c cli d (.kogitoRuntime rt)).err = none ↔
      ∃ d1 d2 : Deployment,
        c.InjectDataIndexURLIntoKogitoRuntimeDeployment cli rt.objectMeta.namespace_
          (onDeploymentCreateMutations c d (.kogitoRuntime rt)).deployment = (d1, none) ∧
        c.InjectJobsServiceURLIntoKogitoRuntimeDeployment cli rt.objectMeta.namespace_ d1
          = (d2, none)) := by
  have hp : (onDeploymentCreateMutations c d (.kogitoRuntime rt)).panic = none :=
    onDeploymentCreateMutations_completes c d rt labels hc hl
  refine ⟨?_, ?_, ?_, ?_⟩
  · rcases h1 : c.InjectDataIndexURLIntoKogitoRuntimeDeployment cli rt.objectMeta.namespace_
        (onDeploymentCreateMutations c d (.kogitoRuntime rt)).deployment with ⟨d1, _ | e1⟩
    · rcases h2 : c.InjectJobsServiceURLIntoKogitoRuntimeDeployment cli
          rt.objectMeta.namespace_ d1 with ⟨d2, _ | e2⟩
      · simp [onDeploymentCreate, hp, h1, h2, KogitoService.GetNamespace]
      · simp [onDeploymentCreate, hp, h1, h2, KogitoService.GetNamespace]
    · simp [onDeploymentCreate, hp, h1, KogitoService.GetNamespace]
  · intro d1 e h1
    simp [onDeploymentCreate, hp, h1, KogitoService.GetNamespace]
  · intro d1 d2 e h1 h2
    simp [onDeploymentCreate, hp, h1, h2, KogitoService.GetNamespace]
  · rcases h1 : c.InjectDataIndexURLIntoKogitoRuntimeDeployment cli rt.objectMeta.namespace_
        (onDeploymentCreateMutations c d (.kogitoRuntime rt)).deployment with ⟨d1, _ | e1⟩
    · rcases h2 : c.InjectJobsServiceURLIntoKogitoRuntimeDeployment cli
          rt.objectMeta.namespace_ d1 with ⟨d2, _ | e2⟩
      · simp [onDeploymentCreate, hp, h1, h2, KogitoService.GetNamespace]
      · simp [onDeploymentCreate, hp, h1, h2, KogitoService.GetNamespace]
    · simp [onDeploymentCreate, hp, h1, KogitoService.GetNamespace]

/-- Witness of C7, amended: in the namespace "no-data-index" the data-index injector
  of the sample fails on the sample deployment; its error is returned and the
  jobs-service injector is not invoked. -/
theorem onDeploymentCreate_injector_errors_witness :
    sampleDeployment.spec.template.spec.containers ≠ [] ∧
    sampleDeployment.spec.template.objectMeta.labels = some [("app", "svc1")] ∧
    (onDeploymentCreate sampleCollaborators {} sampleDeployment
      (.kogitoRuntime { objectMeta := { name := "svc1", namespace_ := "no-data-index" } })).panic
      = none ∧
    (onDeploymentCreate sampleCollaborators {} sampleDeployment
      (.kogitoRuntime { objectMeta := { name := "svc1", namespace_ := "no-data-index" } })).err
      = some { msg := "data index not found" } ∧
    (onDeploymentCreate sampleCollaborators {} sampleDeployment
      (.kogitoRuntime { objectMeta := { name := "svc1", namespace_ := "no-data-index" } })).invoked
      = [.dataIndexURL] := by
  have h := onDeploymentCreate_injector_errors sampleCollaborators {} sampleDeployment
    { objectMeta := { name := "svc1", namespace_ := "no-data-index" } } [("app", "svc1")]
    (by decide) rfl
  have he := h.2.1 _ { msg := "data index not found" } rfl
  exact ⟨by decide, rfl, h.1, by rw [he], by rw [he]⟩

/-! ## The frame of `applyProtoBufConfigurations` -/

/-- C9, as stated, fails on a deployment whose template label map is nil: the write
  of the "protobufcm" label panics before anything is appended, so the deployment is
  left as it was, without a "podinfo" volume and without a mount in its container. -/
theorem applyProtoBufConfigurations_nil_labels_counterexample :
    (applyProtoBufConfigurations
      { spec := { template := { spec := { containers := [{ name := "svc1" }] } } } }
      sampleService).panic = some .nilMapAssignment ∧
    (applyProtoBufConfigurations
      { spec := { template := { spec := { containers := [{ name := "svc1" }] } } } }
      sampleService).deployment.spec.template.spec.volumes = [] ∧
    (applyProtoBufConfigurations
      { spec := { template := { spec := { containers := [{ name := "svc1" }] } } } }
      sampleService).deployment.spec.template.spec.containers = [{ name := "svc1" }] := by
  decide

/-- C9, amended: on a deployment whose template label map is initialised,
  `applyProtoBufConfigurations` runs to its end, keeps the volumes of the template in
  order and appends one volume after them, the downward-API volume "podinfo" with the
  mode 420 by default and the two items "name" (field metadata.name) and "protobufcm"
  (field metadata.labels['protobufcm']), in this order; the first container, if there
  is one, gains one mount at the end of its mounts, of "podinfo" at
  "/home/kogito/podinfo", and the other containers are unchanged. -/
theorem applyProtoBufConfigurations_frame (d : Deployment) (svc : KogitoService)
    (labels : GoMap String String)
    (hlabels : d.spec.template.objectMeta.labels = some labels) :
    (applyProtoBufConfigurations d svc).panic = none ∧
    (applyProtoBufConfigurations d svc).deployment.spec.template.spec.volumes
      = d.spec.template.spec.volumes ++
        [{ name := "podinfo"
           volumeSource :=
             { downwardAPI := some
                 { items :=
                     [ { path := "name"
                         fieldRef := some { apiVersion := "v1", fieldPath := "metadata.name" } },
                       { path := "protobufcm"
                         fieldRef := some
                           { apiVersion := "v1"
                             fieldPath := "metadata.labels['protobufcm']" } } ]
                   defaultMode := some 420 }
               configMap := none } }] ∧
    (d.spec.template.spec.containers = [] →
      (applyProtoBufConfigurations d svc).deployment.spec.template.spec.containers = []) ∧
    (∀ (c0 : Container) (cs : List Container), d.spec.template.spec.containers = c0 :: cs →
      ∃ c0' : Container,
        (applyProtoBufConfigurations d svc).deployment.spec.template.spec.containers
          = c0' :: cs ∧
        c0'.volumeMounts
          = c0.volumeMounts ++ [{ name := "podinfo", mountPath := "/home/kogito/podinfo" }] ∧
        c0'.name = c0.name ∧ c0'.image = c0.image ∧ c0'.env = c0.env) := by
  have hvol : downwardAPIVolume =
      { name := "podinfo"
        volumeSource :=
          { downwardAPI := some
              { items :=
                  [ { path := "name"
                      fieldRef := some { apiVersion := "v1", fieldPath := "metadata.name" } },
                    { path := "protobufcm"
                      fieldRef := some
                        { apiVersion := "v1"
                          fieldPath := "metadata.labels['protobufcm']" } } ]
                defaultMode := some 420 }
            configMap := none } } := by decide
  have hmount : ({ name := downwardAPIVolumeName, mountPath := downwardAPIVolumeMount }
      : VolumeMount) = { name := "podinfo", mountPath := "/home/kogito/podinfo" } := by decide
  cases hc : d.spec.template.spec.containers with
  | nil =>
    rw [applyProtoBufConfigurations_no_container d svc labels hlabels hc, ← hvol]
    refine ⟨rfl, rfl, fun _ => hc, ?_⟩
    intro c0 cs h
    cases h
  | cons c0 cs =>
    rw [applyProtoBufConfigurations_container d svc labels c0 cs hlabels hc, ← hvol]
    refine ⟨rfl, rfl, ?_, ?_⟩
    · intro h
      cases h
    · intro c0' cs' h
      cases h
      exact ⟨_, rfl, by rw [← hmount], rfl, rfl, rfl⟩

/-- Witness of C9, amended: the sample deployment, which has an initialised label
  map, no volume and one container without mounts. -/
theorem applyProtoBufConfigurations_frame_witness :
    sampleDeployment.spec.template.objectMeta.labels = some [("app", "svc1")] ∧
    (applyProtoBufConfigurations sampleDeployment sampleService).panic = none ∧
    ((applyProtoBufConfigurations sampleDeployment
      sampleService).deployment.spec.template.spec.volumes.map (fun v => v.name))
      = ["podinfo"] :=
  ⟨rfl,
   (applyProtoBufConfigurations_frame sampleDeployment sampleService [("app", "svc1")] rfl).1,
   by
     rw [(applyProtoBufConfigurations_frame sampleDeployment sampleService
       [("app", "svc1")] rfl).2.1]
     decide⟩

/-! ## Index safety -/

/-- C10: on an initialised label map `applyProtoBufConfigurations` runs to its end
  whatever the number of containers, and with no container it leaves the container
  list empty while it adds the "protobufcm" label and the "podinfo" volume; it never
  stops on an index out of range.  On a deployment with a container the mutation
  steps of `onDeploymentCreate` never stop on an index out of range, and they run to
  their end on a KogitoRuntime service and an initialised label map; with no
  container they do stop on the index of the first container. -/
theorem deployer_index_safety (c : Collaborators) (d : Deployment) (svc : KogitoService) :
    (∀ labels : GoMap String String, d.spec.template.objectMeta.labels = some labels →
      (applyProtoBufConfigurations d svc).panic = none ∧
      (d.spec.template.spec.containers = [] →
        (applyProtoBufConfigurations d svc).deployment.spec.template.spec.containers = [] ∧
        (∃ written : GoMap String String,
          (applyProtoBufConfigurations d svc).deployment.spec.template.objectMeta.labels
            = some written ∧
          written.get "protobufcm" = some (getProtoBufConfigMapName svc.GetName)) ∧
        ∃ v : Volume,
          (applyProtoBufConfigurations d svc).deployment.spec.template.spec.volumes
            = d.spec.template.spec.volumes ++ [v] ∧ v.name = "podinfo")) ∧
    (applyProtoBufConfigurations d svc).panic ≠ some .indexOutOfRange ∧
    (d.spec.template.spec.containers ≠ [] →
      (onDeploymentCreateMutations c d svc).panic ≠ some .indexOutOfRange) ∧
    (d.spec.template.spec.containers ≠ [] →
      ∀ (rt : KogitoRuntime) (labels : GoMap String String),
        svc = .kogitoRuntime rt → d.spec.template.objectMeta.labels = some labels →
        (onDeploymentCreateMutations c d svc).panic = none) ∧
    (d.spec.template.spec.containers = [] →
      ∀ rt : KogitoRuntime, svc = .kogitoRuntime rt →
        (onDeploymentCreateMutations c d svc).panic = some .indexOutOfRange) := by
  refine ⟨?_, ?_, ?_, ?_, ?_⟩
  · intro labels hl
    refine ⟨?_, ?_⟩
    · cases hc : d.spec.template.spec.containers with
      | nil => rw [applyProtoBufConfigurations_no_container d svc labels hl hc]
      | cons c0 cs => rw [applyProtoBufConfigurations_container d svc labels c0 cs hl hc]
    · intro hc
      rw [applyProtoBufConfigurations_no_container d svc labels hl hc]
      exact ⟨hc, ⟨_, rfl, GoMap.get_set_same labels _ _⟩, downwardAPIVolume, rfl, rfl⟩
  · cases hl : d.spec.template.objectMeta.labels with
    | none =>
      rw [applyProtoBufConfigurations_on_nil_map d svc hl]
      simp
    | some labels =>
      cases hc : d.spec.template.spec.containers with
      | nil =>
        rw [applyProtoBufConfigurations_no_container d svc labels hl hc]
        simp
      | cons c0 cs =>
        rw [applyProtoBufConfigurations_container d svc labels c0 cs hl hc]
        simp
  · exact onDeploymentCreateMutations_in_range c d svc
  · intro hc rt labels hsvc hl
    subst hsvc
    exact onDeploymentCreateMutations_completes c d rt labels hc hl
  · intro hc rt hsvc
    subst hsvc
    simp [onDeploymentCreateMutations, hc]

/-- Witness of C10: a deployment with an initialised label map and no container goes
  through `applyProtoBufConfigurations` and keeps an empty container list, and the
  sample deployment goes through the mutation steps. -/
theorem deployer_index_safety_witness :
    sampleBareDeployment.spec.template.objectMeta.labels = some [("app", "svc1")] ∧
    sampleBareDeployment.spec.template.spec.containers = [] ∧
    (applyProtoBufConfigurations sampleBareDeployment sampleService).panic = none ∧
    (applyProtoBufConfigurations sampleBareDeployment
      sampleService).deployment.spec.template.spec.containers = [] ∧
    sampleDeployment.spec.template.spec.containers ≠ [] ∧
    (onDeploymentCreateMutations sampleCollaborators sampleDeployment sampleService).panic
      = none :=
  ⟨rfl, rfl,
   ((deployer_index_safety sampleCollaborators sampleBareDeployment sampleService).1
     [("app", "svc1")] rfl).1,
   (((deployer_index_safety sampleCollaborators sampleBareDeployment sampleService).1
     [("app", "svc1")] rfl).2 rfl).1,
   by decide,
   (deployer_index_safety sampleCollaborators sampleDeployment sampleService).2.2.2.1
     (by decide) _ [("app", "svc1")] rfl rfl⟩

/-! ## The build-type converter -/

/-- C11: `FromResourceTypeToKogitoBuildType` is a total function and, the constants
  being distinct values, for every resource type: the result is BinaryBuildType
  exactly for BinaryResource; it is LocalSourceBuildType exactly for
  LocalDirectoryResource, LocalFileResource and GitFileResource; and it is
  RemoteSourceBuildType exactly for every other value, GitRepositoryResource and the
  unrecognised values alike. -/
theorem FromResourceTypeToKogitoBuildType_cases {ρ β : Type} [DecidableEq ρ]
    (flag : ResourceTypes ρ) (v1alpha1 : KogitoBuildTypes β)
    (hBinary : flag.BinaryResource ∉
      [flag.LocalDirectoryResource, flag.LocalFileResource, flag.GitFileResource,
        flag.GitRepositoryResource])
    (hGit : flag.GitRepositoryResource ∉
      [flag.LocalDirectoryResource, flag.LocalFileResource, flag.GitFileResource])
    (hLR : v1alpha1.LocalSourceBuildType ≠ v1alpha1.RemoteSourceBuildType)
    (hLB : v1alpha1.LocalSourceBuildType ≠ v1alpha1.BinaryBuildType)
    (hRB : v1alpha1.RemoteSourceBuildType ≠ v1alpha1.BinaryBuildType)
    (resourceType : ρ) :
    (FromResourceTypeToKogitoBuildType flag v1alpha1 resourceType = v1alpha1.BinaryBuildType ↔
      resourceType = flag.BinaryResource) ∧
    (FromResourceTypeToKogitoBuildType flag v1alpha1 resourceType
        = v1alpha1.LocalSourceBuildType ↔
      resourceType = flag.LocalDirectoryResource ∨ resourceType = flag.LocalFileResource ∨
        resourceType = flag.GitFileResource) ∧
    (FromResourceTypeToKogitoBuildType flag v1alpha1 resourceType
        = v1alpha1.RemoteSourceBuildType ↔
      resourceType ≠ flag.BinaryResource ∧
        ¬ (resourceType = flag.LocalDirectoryResource ∨
          resourceType = flag.LocalFileResource ∨ resourceType = flag.GitFileResource)) ∧
    FromResourceTypeToKogitoBuildType flag v1alpha1 flag.GitRepositoryResource
      = v1alpha1.RemoteSourceBuildType := by
  simp only [List.mem_cons, List.mem_singleton, List.not_mem_nil, or_false, not_or] at hBinary hGit
  obtain ⟨hB1, hB2, hB3, hB4⟩ := hBinary
  obtain ⟨hG1, hG2, hG3⟩ := hGit
  have hgit : FromResourceTypeToKogitoBuildType flag v1alpha1 flag.GitRepositoryResource
      = v1alpha1.RemoteSourceBuildType := by
    simp [FromResourceTypeToKogitoBuildType, hG1, hG2, hG3]
  refine ⟨?_, ?_, ?_, hgit⟩ <;> unfold FromResourceTypeToKogitoBuildType
  · by_cases hloc : resourceType = flag.LocalDirectoryResource ∨
        resourceType = flag.LocalFileResource ∨ resourceType = flag.GitFileResource
    · rw [if_pos hloc]
      refine ⟨fun h => absurd h hLB, fun h => ?_⟩
      subst h
      rcases hloc with h | h | h
      · exact absurd h hB1
      · exact absurd h hB2
      · exact absurd h hB3
    · rw [if_neg hloc]
      by_cases hg : resourceType = flag.GitRepositoryResource
      · rw [if_pos hg]
        refine ⟨fun h => absurd h hRB, fun h => ?_⟩
        exact absurd (h.symm.trans hg) hB4
      · rw [if_neg hg]
        by_cases hb : resourceType = flag.BinaryResource
        · rw [if_pos hb]
          exact ⟨fun _ => hb, fun _ => rfl⟩
        · rw [if_neg hb]
          exact ⟨fun h => absurd h hRB, fun h => absurd h hb⟩
  · by_cases hloc : resourceType = flag.LocalDirectoryResource ∨
        resourceType = flag.LocalFileResource ∨ resourceType = flag.GitFileResource
    · rw [if_pos hloc]
      exact ⟨fun _ => hloc, fun _ => rfl⟩
    · rw [if_neg hloc]
      by_cases hg : resourceType = flag.GitRepositoryResource
      · rw [if_pos hg]
        exact ⟨fun h => absurd h.symm hLR, fun h => absurd h hloc⟩
      · rw [if_neg hg]
        by_cases hb : resourceType = flag.BinaryResource
        · rw [if_pos hb]
          exact ⟨fun h => absurd h.symm hLB, fun h => absurd h hloc⟩
        · rw [if_neg hb]
          exact ⟨fun h => absurd h.symm hLR, fun h => absurd h hloc⟩
  · by_cases hloc : resourceType = flag.LocalDirectoryResource ∨
        resourceType = flag.LocalFileResource ∨ resourceType = flag.GitFileResource
    · rw [if_pos hloc]
      exact ⟨fun h => absurd h hLR, fun h => absurd hloc h.2⟩
    · rw [if_neg hloc]
      by_cases hg : resourceType = flag.GitRepositoryResource
      · rw [if_pos hg]
        refine ⟨fun _ => ⟨fun h => ?_, hloc⟩, fun _ => rfl⟩
        exact absurd (h.symm.trans hg) hB4
      · rw [if_neg hg]
        by_cases hb : resourceType = flag.BinaryResource
        · rw [if_pos hb]
          exact ⟨fun h => absurd h.symm hRB, fun h => absurd hb h.1⟩
        · rw [if_neg hb]
          exact ⟨fun _ => ⟨hb, hloc⟩, fun _ => rfl⟩

/-- Witness of C11: with the sample constants, an unrecognised resource type is
  converted to the remote-source build type, and it is neither the binary resource
  nor one of the three local ones. -/
theorem FromResourceTypeToKogitoBuildType_cases_witness :
    sampleResourceTypes.BinaryResource ∉
      [sampleResourceTypes.LocalDirectoryResource, sampleResourceTypes.LocalFileResource,
        sampleResourceTypes.GitFileResource, sampleResourceTypes.GitRepositoryResource] ∧
    sampleResourceTypes.GitRepositoryResource ∉
      [sampleResourceTypes.LocalDirectoryResource, sampleResourceTypes.LocalFileResource,
        sampleResourceTypes.GitFileResource] ∧
    sampleKogitoBuildTypes.LocalSourceBuildType ≠ sampleKogitoBuildTypes.RemoteSourceBuildType ∧
    sampleKogitoBuildTypes.LocalSourceBuildType ≠ sampleKogitoBuildTypes.BinaryBuildType ∧
    sampleKogitoBuildTypes.RemoteSourceBuildType ≠ sampleKogitoBuildTypes.BinaryBuildType ∧
    FromResourceTypeToKogitoBuildType sampleResourceTypes sampleKogitoBuildTypes "S3Resource"
      = "RemoteSource" ∧
    FromResourceTypeToKogitoBuildType sampleResourceTypes sampleKogitoBuildTypes
      "BinaryResource" = "Binary" :=
  ⟨by decide, by decide, by decide, by decide, by decide,
   (FromResourceTypeToKogitoBuildType_cases sampleResourceTypes sampleKogitoBuildTypes
     (by decide) (by decide) (by decide) (by decide) (by decide) "S3Resource").2.2.1.mpr
     (by decide),
   (FromResourceTypeToKogitoBuildType_cases sampleResourceTypes sampleKogitoBuildTypes
     (by decide) (by decide) (by decide) (by decide) (by decide) "BinaryResource").1.mpr rfl⟩

end Kogito
